import Mathlib

/-!
Shallow embedding of the ESP32 connectivity subsystem of
`src/face_rec_web.py`: shared connection state, command sender,
telemetry reader, network scanner and connection supervisor.
Stateful Python code is modelled as explicit state passing; socket
I/O outcomes are passed in as explicit parameters.
-/

set_option autoImplicit false

namespace FaceRecWeb

/-- Shared ESP connection record `_esp`:
sock handle (None or a handle id), connected flag, ip, port, last error. -/
structure EspState where
  sock : Option Nat
  connected : Bool
  ip : String
  port : Nat
  last_error : String
  deriving DecidableEq, Repr

/-- Outcome of a `socket.send` call: success, or a raised `socket.error`
carrying a message. -/
inductive WriteResult where
  | ok
  | err (e : String)
  deriving DecidableEq, Repr

/-- Result of a send operation: the shared state afterwards, the
`(ok, message)` pair returned to the caller, the string handed to
`socket.send` (`none` when no write was attempted), and whether
`close()` was invoked on the socket during the operation. -/
structure SendResult where
  state : EspState
  ok : Bool
  msg : String
  wire : Option String
  sockClosed : Bool
  deriving DecidableEq, Repr

/-- Does the character list `s` begin with the character list `pre`? -/
def charsStartWith : List Char → List Char → Bool
  | [], _ => true
  | _ :: _, [] => false
  | p :: ps, c :: cs => p == c && charsStartWith ps cs

/-- Python `s.startswith(t)`. -/
def pyStartsWith (s t : String) : Bool :=
  charsStartWith t.data s.data

/-- Python `s.endswith(t)`. -/
def pyEndsWith (s t : String) : Bool :=
  charsStartWith t.data.reverse s.data.reverse

/-- Does the character list contain `ndl` as a contiguous sublist? -/
def charsContain (ndl : List Char) : List Char → Bool
  | [] => charsStartWith ndl []
  | c :: cs => charsStartWith ndl (c :: cs) || charsContain ndl cs

/-- Python `ndl in hay` on strings (substring test). -/
def pyIn (ndl hay : String) : Bool :=
  charsContain ndl.data hay.data

/-- Python `s.lower()` (per-character ASCII lowering). -/
def pyLowerString (s : String) : String :=
  String.mk (s.data.map Char.toLower)

/-- Python `s.strip()`: drop whitespace from both ends. -/
def pyStrip (s : String) : String :=
  String.mk (((s.data.dropWhile Char.isWhitespace).reverse.dropWhile Char.isWhitespace).reverse)

/-- `if not cmd.endswith("\n"): cmd += "\n"` in `send_to_esp_raw`. -/
def addNewline (cmd : String) : String :=
  if pyEndsWith cmd "\n" then cmd else cmd ++ "\n"

/-- `send_to_esp_raw` (face_rec_web.py lines 114-127): appends a newline,
reads the shared state, writes if `sock and connected`; on a socket error
it publishes a disconnected state via `_set_esp_state(None, False, ip,
port, str(e))` (without closing the socket) and reports the error. -/
def send_to_esp_raw (st : EspState) (w : WriteResult) (cmd0 : String) : SendResult :=
  let cmd := addNewline cmd0
  if st.sock.isSome && st.connected then
    match w with
    | WriteResult.ok => ⟨st, true, "sent", some cmd, false⟩
    | WriteResult.err e =>
        ⟨⟨Option.none, false, st.ip, st.port, e⟩, false, "socket error: " ++ e, some cmd, false⟩
  else
    ⟨st, false, "esp not connected", Option.none, false⟩

/-- A Python value passed as the `value` argument of `send_command`. -/
inductive PyVal where
  | str (s : String)
  | int (n : Int)
  | none
  deriving DecidableEq, Repr

/-- Python `str(value)` for the modelled values. -/
def pyStr : PyVal → String
  | PyVal.str s => s
  | PyVal.int n => toString n
  | PyVal.none => "None"

/-- Python `str(value).lower()` (ASCII lowering, as used by the command values). -/
def pyLower (v : PyVal) : String :=
  pyLowerString (pyStr v)

/-- Python `int(value)`: succeeds on ints and on strings denoting integers. -/
def pyInt : PyVal → Option Int
  | PyVal.int n => some n
  | PyVal.str s => s.toInt?
  | PyVal.none => Option.none

/-- A validation failure inside `send_command`: state untouched, no write. -/
def pureFail (st : EspState) (m : String) : SendResult :=
  ⟨st, false, m, Option.none, false⟩

/-- `send_command` (face_rec_web.py lines 129-188): normalises the kind with
`lower().strip()` and dispatches through the same chain of `if` tests as the
source, serialising valid commands into wire strings for `send_to_esp_raw`. -/
def send_command (st : EspState) (w : WriteResult) (kind : String)
    (value : PyVal) (index : Option Int) : SendResult :=
  let k := pyStrip (pyLowerString kind)
  if k = "light" then
    if index = some 1 ∨ index = some 2 ∨ index = some 3 then
      let state := pyLower value
      if state = "on" ∨ state = "off" then
        send_to_esp_raw st w ("light" ++ (index.map toString).getD "None" ++ ":" ++ state)
      else pureFail st "invalid light state"
    else pureFail st "invalid light index"
  else if k = "fan" then
    let state := pyLower value
    if state = "on" ∨ state = "off" then
      send_to_esp_raw st w ("fan:" ++ state)
    else pureFail st "invalid fan state"
  else if k = "door" then
    let state := pyLower value
    if state = "open" ∨ state = "close" then
      send_to_esp_raw st w ("door:" ++ state)
    else pureFail st "invalid door state"
  else if k = "servo" then
    match pyInt value with
    | some angle => send_to_esp_raw st w ("servo:" ++ toString (max 0 (min 180 angle)))
    | Option.none => pureFail st "invalid servo angle"
  else if k = "led" then
    let state := pyLower value
    if state = "on" ∨ state = "off" then
      send_to_esp_raw st w ("light1:" ++ state)
    else pureFail st "invalid led state"
  else if k = "start" then
    send_to_esp_raw st w "start"
  else if k = "ping" then
    send_to_esp_raw st w "ping"
  else if k = "raw" then
    match value with
    | PyVal.str s => if s = "" then pureFail st "invalid raw command" else send_to_esp_raw st w s
    | _ => pureFail st "invalid raw command"
  else
    pureFail st "unknown command"

/-! ## Telemetry store and reader -/

/-- A scalar JSON value appearing in a device frame. -/
inductive JVal where
  | jnum (n : Int)
  | jstr (s : String)
  deriving DecidableEq, Repr

/-- A parsed JSON object: ordered key/value pairs (later bindings win,
as in Python's `json.loads`). -/
def JObj : Type := List (String × JVal)

/-- Value of key `k` in the object (last binding wins, as in a Python dict
built by `json.loads`). -/
def objGet (o : JObj) (k : String) : Option JVal :=
  List.lookup k o.reverse

/-- Python `k in data` for a dict. -/
def objHasKey (o : JObj) (k : String) : Bool :=
  (objGet o k).isSome

/-- Python `d.update(o)` semantics on a dict viewed as a partial map:
keys present in `o` are overwritten, all others keep their value. -/
def dictUpdate (d : String → Option JVal) (o : JObj) : String → Option JVal :=
  fun k =>
    match objGet o k with
    | some v => some v
    | Option.none => d k

/-- One newline-terminated line from the device, after `json.loads`:
either a parsed object, or a line whose parse (or dict update) raised
and is swallowed by the `except Exception: pass`. -/
inductive Frame where
  | obj (o : JObj)
  | malformed

/-- The shared telemetry store: `_last_telemetry` (merged fields) and
`_last_ack` (most recent ack object, initially the empty dict). -/
structure TelemState where
  telemetry : String → Option JVal
  ack : JObj

/-- Initial store: `_last_telemetry = {}`, `_last_ack = {}`. -/
def telemInit : TelemState :=
  ⟨fun _ => Option.none, []⟩

/-- Processing of one parsed line inside `telemetry_reader`
(face_rec_web.py lines 412-421): an object holding the key `"ack"`
replaces `_last_ack` wholesale; any other object is shallow-merged into
`_last_telemetry`; malformed lines are discarded. -/
def process_frame (t : TelemState) : Frame → TelemState
  | Frame.malformed => t
  | Frame.obj o =>
      if objHasKey o "ack" then ⟨t.telemetry, o⟩
      else ⟨dictUpdate t.telemetry o, t.ack⟩

/-- Feed a sequence of frames through `process_frame`. -/
def processFrames (t : TelemState) (fs : List Frame) : TelemState :=
  fs.foldl process_frame t

/-- Outcome of one `recv` poll in `telemetry_reader`: a timeout, a
zero-length read (peer closed), a chunk of complete frames, or a raised
exception. -/
inductive RecvOutcome where
  | timeout
  | closed
  | frames (fs : List Frame)
  | exn (e : String)

/-- Result of one iteration of the `telemetry_reader` loop. -/
structure TelemStepResult where
  esp : EspState
  telem : TelemState
  sockClosed : Bool

/-- One iteration of `telemetry_reader` (face_rec_web.py lines 390-426):
idles without a connected socket; on a zero-length read or a non-timeout
exception it publishes a disconnected state via `_set_esp_state` (without
closing the socket); otherwise it splits the buffered bytes into lines
and processes each parsed frame. -/
def telemetry_step (esp : EspState) (t : TelemState) (r : RecvOutcome) : TelemStepResult :=
  match esp.connected, esp.sock with
  | true, some _ =>
      (match r with
       | RecvOutcome.timeout => ⟨esp, t, false⟩
       | RecvOutcome.closed => ⟨⟨Option.none, false, esp.ip, esp.port, "peer closed"⟩, t, false⟩
       | RecvOutcome.frames fs => ⟨esp, fs.foldl process_frame t, false⟩
       | RecvOutcome.exn e => ⟨⟨Option.none, false, esp.ip, esp.port, e⟩, t, false⟩)
  | _, _ => ⟨esp, t, false⟩

/-! ## Discovery -/

/-- `HELLO_SIGNATURE` (face_rec_web.py line 267). -/
def HELLO_SIGNATURE : String := "\"hello\":\"esp32\""

/-- Split a character list at every `'.'` (accumulator holds the current
fragment reversed). -/
def splitDotAux : List Char → List Char → List (List Char)
  | [], acc => [acc.reverse]
  | c :: cs, acc =>
      if c == '.' then acc.reverse :: splitDotAux cs []
      else splitDotAux cs (c :: acc)

/-- Python `s.split(".")`. -/
def pySplitDot (s : String) : List String :=
  (splitDotAux s.data []).map String.mk

/-- Python `".".join(parts)`. -/
def joinDots : List String → String
  | [] => ""
  | [x] => x
  | x :: xs => x ++ "." ++ joinDots xs

/-- `_cidr_hosts` (lines 269-272): the `.2` .. `.254` addresses of the
local `/24`. -/
def _cidr_hosts (base_ip : String) : List String :=
  let parts := pySplitDot base_ip
  let subnet := joinDots (parts.take 3)
  (List.range' 2 253).map (fun i => subnet ++ "." ++ toString i)

/-- The `seen`-set de-duplication loop at the end of `_arp_candidates`:
keep the first occurrence of each address, in order. -/
def dedupFirst (seen : List String) : List String → List String
  | [] => []
  | x :: xs =>
      if seen.contains x then dedupFirst seen xs
      else x :: dedupFirst (x :: seen) xs

/-- `_arp_candidates` (lines 274-290), with the addresses found by the
regex over `arp -a` output supplied as `arpIps`: keep those inside the
local prefix that do not end in `.1`, de-duplicated in order of first
appearance. -/
def _arp_candidates (pfx : String) (arpIps : List String) : List String :=
  let cands := arpIps.filter (fun ip => pyStartsWith ip (pfx ++ ".") && !pyEndsWith ip ".1")
  dedupFirst [] cands

/-- Outcome of probing one host in `_probe_esp`: the connect raised, the
connect succeeded and `recv` timed out (data stays `b""`), `recv`
returned decoded text, or `recv` raised a non-timeout error (caught by
the outer `except`). -/
inductive ProbeOutcome where
  | connectFail (e : String)
  | recvTimeout
  | recvData (txt : String)
  | recvFail (e : String)
  deriving DecidableEq, Repr

/-- `_probe_esp` (lines 292-310): a host matches exactly when the probe
connects, reads text, and the text contains `HELLO_SIGNATURE`; every
error path returns `False`. -/
def _probe_esp : ProbeOutcome → Bool
  | ProbeOutcome.connectFail _ => false
  | ProbeOutcome.recvTimeout => pyIn HELLO_SIGNATURE ""
  | ProbeOutcome.recvData txt => pyIn HELLO_SIGNATURE txt
  | ProbeOutcome.recvFail _ => false

/-- The candidate list built in `discover_esp_ip` (lines 319-322):
ARP-cache candidates first, then the remaining `/24` hosts not already
seen and not ending in `.1`. -/
def discovery_candidates (local_ip : String) (arpIps : List String) : List String :=
  let parts := pySplitDot local_ip
  let pfx := joinDots (parts.take 3)
  let arp := _arp_candidates pfx arpIps
  let all_hosts := _cidr_hosts local_ip
  arp ++ all_hosts.filter (fun h => !arp.contains h && !pyEndsWith h ".1")

/-- `discover_esp_ip` (lines 312-337).  The bounded thread pool is
modelled by `sched`, which lists the probe futures in completion order
(`as_completed`); `probeRes` gives each host's probe outcome.  The first
completed candidate whose probe returns `True` is returned; with no
match the scan reports `None`. -/
def discover_esp_ip (local_ip : String) (arpIps : List String)
    (sched : List String → List String) (probeRes : String → ProbeOutcome) : Option String :=
  let parts := pySplitDot local_ip
  if parts.length ≠ 4 then Option.none
  else
    (sched (discovery_candidates local_ip arpIps)).find?
      (fun ip => _probe_esp (probeRes ip))

/-! ## Connection supervisor (`esp_reconnector`) -/

/-- `AUTO_START_ON_CONNECT` (face_rec_web.py line 43). -/
def AUTO_START_ON_CONNECT : Bool := true

/-- The supervisor-visible state: the shared `_esp` record plus the
global `_sent_start_after_connect` flag. -/
structure SysState where
  esp : EspState
  sentStart : Bool
  deriving DecidableEq, Repr

/-- Outcome of one connection attempt: `s.connect` raised, or the
connect succeeded and the handshake read produced `txt` (the decoded
bytes; `""` when the 1-second recv timed out). -/
inductive ConnectOutcome where
  | connectErr (e : String)
  | handshake (txt : String)
  deriving DecidableEq, Repr

/-- Environment of one `esp_reconnector` loop iteration: the target
record, the connect/handshake outcome, the id of the fresh socket, and
the write outcome for the auto-start command. -/
structure ReconEnv where
  targetIp : Option String
  targetPort : Nat
  conn : ConnectOutcome
  sockId : Nat
  w : WriteResult
  deriving DecidableEq, Repr

/-- Result of one `esp_reconnector` iteration: the new state, whether
the `start` command was handed to `send_command` this iteration, and
whether the fresh socket was closed this iteration. -/
structure ReconResult where
  state : SysState
  sentStartCmd : Bool
  closedSock : Bool
  deriving DecidableEq, Repr

/-- One iteration of the `esp_reconnector` loop (face_rec_web.py lines
344-388): while connected it only sleeps; otherwise, with a known
target, it attempts connect + handshake.  On a matching handshake it
publishes the connected state with an empty `last_error`, resets
`_sent_start_after_connect`, and auto-sends `start` once, setting the
flag only when the send succeeded.  On a missing signature it closes the
socket and the raised error is caught, publishing a disconnected state
with `"handshake failed (not esp32)"`. -/
def reconnector_step (st : SysState) (env : ReconEnv) : ReconResult :=
  if st.esp.connected then ⟨st, false, false⟩
  else
    match env.targetIp with
    | Option.none => ⟨st, false, false⟩
    | some ip =>
        match env.conn with
        | ConnectOutcome.connectErr e =>
            ⟨⟨⟨Option.none, false, ip, env.targetPort, e⟩, st.sentStart⟩, false, false⟩
        | ConnectOutcome.handshake txt =>
            if pyIn HELLO_SIGNATURE txt then
              let esp1 : EspState := ⟨some env.sockId, true, ip, env.targetPort, ""⟩
              let flag0 := false
              if AUTO_START_ON_CONNECT && !flag0 then
                let r := send_command esp1 env.w "start" PyVal.none Option.none
                ⟨⟨r.state, if r.ok then true else flag0⟩, true, false⟩
              else ⟨⟨esp1, flag0⟩, false, false⟩
            else
              ⟨⟨⟨Option.none, false, ip, env.targetPort, "handshake failed (not esp32)"⟩,
                 st.sentStart⟩, false, true⟩

/-- Run the reconnector over a sequence of iteration environments,
counting how many times the `start` command was handed to the socket. -/
def reconnector_run (st : SysState) : List ReconEnv → SysState × Nat
  | [] => (st, 0)
  | e :: es =>
      let r := reconnector_step st e
      let rest := reconnector_run r.state es
      (rest.1, (if r.sentStartCmd then 1 else 0) + rest.2)

/-- An iteration that performs a fresh transition into Connected: the
loop starts disconnected, a target is known, and the handshake text
carries the signature. -/
def acceptedHandshake (st : SysState) (env : ReconEnv) : Bool :=
  !st.esp.connected && env.targetIp.isSome &&
    (match env.conn with
     | ConnectOutcome.handshake txt => pyIn HELLO_SIGNATURE txt
     | _ => false)

/-- Number of fresh transitions into Connected along a run. -/
def freshConnects (st : SysState) : List ReconEnv → Nat
  | [] => 0
  | e :: es =>
      (if acceptedHandshake st e then 1 else 0) +
        freshConnects (reconnector_step st e).state es

/-! ## Reduction lemmas for `send_command` at each literal kind -/

theorem send_command_light_eq (st : EspState) (w : WriteResult) (v : PyVal) (i : Option Int) :
    send_command st w "light" v i =
      if i = some 1 ∨ i = some 2 ∨ i = some 3 then
        (if pyLower v = "on" ∨ pyLower v = "off" then
          send_to_esp_raw st w ("light" ++ (i.map toString).getD "None" ++ ":" ++ pyLower v)
        else pureFail st "invalid light state")
      else pureFail st "invalid light index" := rfl

theorem send_command_fan_eq (st : EspState) (w : WriteResult) (v : PyVal) (i : Option Int) :
    send_command st w "fan" v i =
      if pyLower v = "on" ∨ pyLower v = "off" then
        send_to_esp_raw st w ("fan:" ++ pyLower v)
      else pureFail st "invalid fan state" := rfl

theorem send_command_door_eq (st : EspState) (w : WriteResult) (v : PyVal) (i : Option Int) :
    send_command st w "door" v i =
      if pyLower v = "open" ∨ pyLower v = "close" then
        send_to_esp_raw st w ("door:" ++ pyLower v)
      else pureFail st "invalid door state" := rfl

theorem send_command_servo_eq (st : EspState) (w : WriteResult) (v : PyVal) (i : Option Int) :
    send_command st w "servo" v i =
      match pyInt v with
      | some angle => send_to_esp_raw st w ("servo:" ++ toString (max 0 (min 180 angle)))
      | Option.none => pureFail st "invalid servo angle" := rfl

theorem send_command_led_eq (st : EspState) (w : WriteResult) (v : PyVal) (i : Option Int) :
    send_command st w "led" v i =
      if pyLower v = "on" ∨ pyLower v = "off" then
        send_to_esp_raw st w ("light1:" ++ pyLower v)
      else pureFail st "invalid led state" := rfl

theorem send_command_start_eq (st : EspState) (w : WriteResult) (v : PyVal) (i : Option Int) :
    send_command st w "start" v i = send_to_esp_raw st w "start" := rfl

theorem send_command_ping_eq (st : EspState) (w : WriteResult) (v : PyVal) (i : Option Int) :
    send_command st w "ping" v i = send_to_esp_raw st w "ping" := rfl

theorem send_command_raw_eq (st : EspState) (w : WriteResult) (s : String) (i : Option Int) :
    send_command st w "raw" (PyVal.str s) i =
      if s = "" then pureFail st "invalid raw command" else send_to_esp_raw st w s := rfl

/-- Without a connected socket, `send_to_esp_raw` touches nothing and
reports `"esp not connected"`. -/
theorem send_to_esp_raw_not_connected (st : EspState) (w : WriteResult) (c : String)
    (h : st.connected = false) :
    send_to_esp_raw st w c = ⟨st, false, "esp not connected", Option.none, false⟩ := by
  simp [send_to_esp_raw, h]

/-- With a connected socket and a successful write, `send_to_esp_raw`
reports success and writes the newline-terminated command. -/
theorem send_to_esp_raw_connected_ok (st : EspState) (s : Nat) (c : String)
    (hs : st.sock = some s) (hc : st.connected = true) :
    send_to_esp_raw st WriteResult.ok c = ⟨st, true, "sent", some (addNewline c), false⟩ := by
  simp [send_to_esp_raw, hs, hc]

/-- The valid command shapes enumerated by the specification's wire
protocol table (§6): light 1..3 on/off, fan on/off, door open/close,
servo with an integer-convertible angle, start, ping, raw non-empty. -/
def validCall (kind : String) (value : PyVal) (index : Option Int) : Prop :=
  (kind = "light" ∧ (index = some 1 ∨ index = some 2 ∨ index = some 3)
      ∧ (pyLower value = "on" ∨ pyLower value = "off"))
  ∨ (kind = "fan" ∧ (pyLower value = "on" ∨ pyLower value = "off"))
  ∨ (kind = "door" ∧ (pyLower value = "open" ∨ pyLower value = "close"))
  ∨ (kind = "servo" ∧ ∃ n, pyInt value = some n)
  ∨ kind = "start"
  ∨ kind = "ping"
  ∨ (kind = "raw" ∧ ∃ s, value = PyVal.str s ∧ s ≠ "")

/-! ## Claims -/

/-- C1 (counterexample): against the claimed message, a valid command
sent while not connected returns the message `"esp not connected"`,
which is not the string `"not connected"`. -/
theorem claim1_counterexample :
    (send_command ⟨Option.none, false, "", 0, ""⟩ WriteResult.ok "ping" PyVal.none
        Option.none).msg = "esp not connected"
    ∧ ¬((send_command ⟨Option.none, false, "", 0, ""⟩ WriteResult.ok "ping" PyVal.none
        Option.none).msg = "not connected") := by
  decide

/-- C1 (amended): for every valid command kind (light 1..3 on/off, fan,
door, servo, start, ping, non-empty raw), calling `send_command` while
the shared state is NotConnected returns `ok = false` with the message
`"esp not connected"`, leaves the state untouched, performs no socket
write, and (being a total function) never raises. -/
theorem claim1_send_while_not_connected (st : EspState) (w : WriteResult)
    (kind : String) (value : PyVal) (index : Option Int)
    (hv : validCall kind value index) (hc : st.connected = false) :
    send_command st w kind value index =
      ⟨st, false, "esp not connected", Option.none, false⟩ := by
  rcases hv with ⟨hk, hi, hs⟩ | ⟨hk, hs⟩ | ⟨hk, hs⟩ | ⟨hk, n, hn⟩ | hk | hk | ⟨hk, s, hvs, hne⟩
  · subst hk
    rw [send_command_light_eq, if_pos hi, if_pos hs]
    exact send_to_esp_raw_not_connected _ _ _ hc
  · subst hk
    rw [send_command_fan_eq, if_pos hs]
    exact send_to_esp_raw_not_connected _ _ _ hc
  · subst hk
    rw [send_command_door_eq, if_pos hs]
    exact send_to_esp_raw_not_connected _ _ _ hc
  · subst hk
    rw [send_command_servo_eq, hn]
    exact send_to_esp_raw_not_connected _ _ _ hc
  · subst hk
    rw [send_command_start_eq]
    exact send_to_esp_raw_not_connected _ _ _ hc
  · subst hk
    rw [send_command_ping_eq]
    exact send_to_esp_raw_not_connected _ _ _ hc
  · subst hk; subst hvs
    rw [send_command_raw_eq, if_neg hne]
    exact send_to_esp_raw_not_connected _ _ _ hc

/-- C1 (witness): the amended theorem applied to a concrete ping while
not connected. -/
theorem claim1_witness :
    validCall "ping" PyVal.none Option.none
    ∧ (⟨Option.none, false, "", 0, ""⟩ : EspState).connected = false
    ∧ send_command ⟨Option.none, false, "", 0, ""⟩ WriteResult.ok "ping" PyVal.none Option.none
        = ⟨⟨Option.none, false, "", 0, ""⟩, false, "esp not connected", Option.none, false⟩ :=
  ⟨Or.inr (Or.inr (Or.inr (Or.inr (Or.inr (Or.inl rfl))))), rfl,
   claim1_send_while_not_connected _ WriteResult.ok "ping" PyVal.none Option.none
     (Or.inr (Or.inr (Or.inr (Or.inr (Or.inr (Or.inl rfl)))))) rfl⟩

/-- C2: `send_command("servo", v)` with an integer-convertible `v` sends
the wire string `servo:<clamp(v,0,180)>`; concretely `v = 300` writes
`"servo:180\n"` and `v = -10` writes `"servo:0\n"`; and
`send_command("light", ..., i)` with any index outside 1..3 fails with
`"invalid light index"`, leaving the state untouched and writing nothing
to the socket. -/
theorem claim2_servo_clamp_light_validation (st : EspState) (s : Nat)
    (hs : st.sock = some s) (hc : st.connected = true) :
    (∀ (st' : EspState) (w : WriteResult) (v : PyVal) (n : Int), pyInt v = some n →
        send_command st' w "servo" v Option.none
          = send_to_esp_raw st' w ("servo:" ++ toString (max 0 (min 180 n))))
    ∧ (send_command st WriteResult.ok "servo" (PyVal.int 300) Option.none).wire
        = some "servo:180\n"
    ∧ (send_command st WriteResult.ok "servo" (PyVal.int (-10)) Option.none).wire
        = some "servo:0\n"
    ∧ (∀ (st' : EspState) (w : WriteResult) (v : PyVal) (i : Option Int),
        ¬(i = some 1 ∨ i = some 2 ∨ i = some 3) →
        send_command st' w "light" v i
          = ⟨st', false, "invalid light index", Option.none, false⟩) := by
  have hserv : ∀ (st' : EspState) (w : WriteResult) (v : PyVal) (n : Int),
      pyInt v = some n →
      send_command st' w "servo" v Option.none
        = send_to_esp_raw st' w ("servo:" ++ toString (max 0 (min 180 n))) := by
    intro st' w v n hn
    rw [send_command_servo_eq, hn]
  refine ⟨hserv, ?_, ?_, ?_⟩
  · rw [hserv st WriteResult.ok (PyVal.int 300) 300 rfl,
      send_to_esp_raw_connected_ok st s _ hs hc]
    rfl
  · rw [hserv st WriteResult.ok (PyVal.int (-10)) (-10) rfl,
      send_to_esp_raw_connected_ok st s _ hs hc]
    rfl
  · intro st' w v i hi
    rw [send_command_light_eq, if_neg hi]
    rfl

/-- C2 (witness): the theorem applied to a concrete connected state. -/
theorem claim2_witness :
    (⟨some 0, true, "192.168.4.50", 8088, ""⟩ : EspState).sock = some 0
    ∧ (⟨some 0, true, "192.168.4.50", 8088, ""⟩ : EspState).connected = true
    ∧ (send_command ⟨some 0, true, "192.168.4.50", 8088, ""⟩ WriteResult.ok "servo"
        (PyVal.int 300) Option.none).wire = some "servo:180\n"
    ∧ (send_command ⟨some 0, true, "192.168.4.50", 8088, ""⟩ WriteResult.ok "servo"
        (PyVal.int (-10)) Option.none).wire = some "servo:0\n" :=
  ⟨rfl, rfl,
   (claim2_servo_clamp_light_validation ⟨some 0, true, "192.168.4.50", 8088, ""⟩ 0 rfl rfl).2.1,
   (claim2_servo_clamp_light_validation ⟨some 0, true, "192.168.4.50", 8088, ""⟩ 0 rfl rfl).2.2.1⟩

/-- C10: the kind `"led"` is accepted as a compatibility alias: a state
in on/off maps to the wire string `light1:<state>`, any other state
fails with `"invalid led state"` and never reaches the socket. -/
theorem claim10_led_alias (st : EspState) (s : Nat)
    (hs : st.sock = some s) (hc : st.connected = true) :
    (∀ (st' : EspState) (w : WriteResult) (v : PyVal),
        (pyLower v = "on" ∨ pyLower v = "off") →
        send_command st' w "led" v Option.none
          = send_to_esp_raw st' w ("light1:" ++ pyLower v))
    ∧ (send_command st WriteResult.ok "led" (PyVal.str "on") Option.none).wire
        = some "light1:on\n"
    ∧ (send_command st WriteResult.ok "led" (PyVal.str "off") Option.none).wire
        = some "light1:off\n"
    ∧ (∀ (st' : EspState) (w : WriteResult) (v : PyVal),
        ¬(pyLower v = "on" ∨ pyLower v = "off") →
        send_command st' w "led" v Option.none
          = ⟨st', false, "invalid led state", Option.none, false⟩) := by
  have hled : ∀ (st' : EspState) (w : WriteResult) (v : PyVal),
      (pyLower v = "on" ∨ pyLower v = "off") →
      send_command st' w "led" v Option.none
        = send_to_esp_raw st' w ("light1:" ++ pyLower v) := by
    intro st' w v hv
    rw [send_command_led_eq, if_pos hv]
  refine ⟨hled, ?_, ?_, ?_⟩
  · rw [hled st WriteResult.ok (PyVal.str "on") (Or.inl (by decide)),
      send_to_esp_raw_connected_ok st s _ hs hc]
    rfl
  · rw [hled st WriteResult.ok (PyVal.str "off") (Or.inr (by decide)),
      send_to_esp_raw_connected_ok st s _ hs hc]
    rfl
  · intro st' w v hv
    rw [send_command_led_eq, if_neg hv]
    rfl

/-- C10 (witness): the theorem applied to a concrete connected state and
a concrete invalid state value. -/
theorem claim10_witness :
    (⟨some 0, true, "192.168.4.50", 8088, ""⟩ : EspState).sock = some 0
    ∧ (send_command ⟨some 0, true, "192.168.4.50", 8088, ""⟩ WriteResult.ok "led"
        (PyVal.str "on") Option.none).wire = some "light1:on\n"
    ∧ send_command ⟨some 0, true, "192.168.4.50", 8088, ""⟩ WriteResult.ok "led"
        (PyVal.str "blink") Option.none
        = ⟨⟨some 0, true, "192.168.4.50", 8088, ""⟩, false, "invalid led state",
            Option.none, false⟩ :=
  ⟨rfl,
   (claim10_led_alias ⟨some 0, true, "192.168.4.50", 8088, ""⟩ 0 rfl rfl).2.1,
   (claim10_led_alias ⟨some 0, true, "192.168.4.50", 8088, ""⟩ 0 rfl rfl).2.2.2
     _ WriteResult.ok (PyVal.str "blink") (by decide)⟩

/-- C3: a non-ack frame is shallow-merged into the telemetry snapshot —
exactly the keys present in the frame are overwritten, every other key
keeps its previous value — and the frame sequence
temp=20, hum=50, temp=21 yields the final snapshot temp=21, hum=50. -/
theorem claim3_telemetry_shallow_merge :
    (∀ (t : TelemState) (o : JObj), objHasKey o "ack" = false →
       (∀ k, objHasKey o k = true → (process_frame t (Frame.obj o)).telemetry k = objGet o k)
       ∧ (∀ k, objHasKey o k = false → (process_frame t (Frame.obj o)).telemetry k = t.telemetry k))
    ∧ (∀ k, (processFrames telemInit
          [Frame.obj [("temp", JVal.jnum 20)], Frame.obj [("hum", JVal.jnum 50)],
           Frame.obj [("temp", JVal.jnum 21)]]).telemetry k
        = if k = "temp" then some (JVal.jnum 21)
          else if k = "hum" then some (JVal.jnum 50)
          else Option.none) := by
  constructor
  · intro t o hack
    have hrw : process_frame t (Frame.obj o) = ⟨dictUpdate t.telemetry o, t.ack⟩ := by
      simp [process_frame, hack]
    constructor
    · intro k hk
      rcases Option.isSome_iff_exists.mp (by simpa [objHasKey] using hk) with ⟨v, hv⟩
      rw [hrw]
      simp [dictUpdate, hv]
    · intro k hk
      have hv : objGet o k = Option.none := by
        rcases h : objGet o k with _ | v
        · rfl
        · rw [objHasKey, h] at hk
          simp at hk
      rw [hrw]
      simp [dictUpdate, hv]
  · intro k
    show dictUpdate (dictUpdate (dictUpdate (fun _ => Option.none)
        [("temp", JVal.jnum 20)]) [("hum", JVal.jnum 50)]) [("temp", JVal.jnum 21)] k
      = if k = "temp" then some (JVal.jnum 21)
        else if k = "hum" then some (JVal.jnum 50)
        else Option.none
    by_cases h1 : k = "temp"
    · subst h1; decide
    by_cases h2 : k = "hum"
    · subst h2; decide
    have b1 : (k == "temp") = false := beq_eq_false_iff_ne.mpr h1
    have b2 : (k == "hum") = false := beq_eq_false_iff_ne.mpr h2
    simp [dictUpdate, objGet, List.lookup, b1, b2, h1, h2]

/-- C3 (witness): the merge law applied to a concrete non-ack frame and
a concrete key present in that frame. -/
theorem claim3_witness :
    objHasKey [("temp", JVal.jnum 20)] "ack" = false
    ∧ objHasKey [("temp", JVal.jnum 20)] "temp" = true
    ∧ (process_frame telemInit (Frame.obj [("temp", JVal.jnum 20)])).telemetry "temp"
        = objGet [("temp", JVal.jnum 20)] "temp" :=
  ⟨rfl, rfl,
   (claim3_telemetry_shallow_merge.1 telemInit [("temp", JVal.jnum 20)] rfl).1 "temp" rfl⟩

/-- C4: a frame containing the `"ack"` key replaces the ack record
wholesale and leaves the telemetry snapshot unchanged; a non-ack frame
(or a discarded malformed line) leaves the ack record unchanged. -/
theorem claim4_ack_wholesale_replacement :
    (∀ (t : TelemState) (o : JObj), objHasKey o "ack" = true →
       process_frame t (Frame.obj o) = ⟨t.telemetry, o⟩)
    ∧ (∀ (t : TelemState) (o : JObj), objHasKey o "ack" = false →
       (process_frame t (Frame.obj o)).ack = t.ack)
    ∧ (∀ t : TelemState, process_frame t Frame.malformed = t) := by
  refine ⟨?_, ?_, ?_⟩
  · intro t o h
    simp [process_frame, h]
  · intro t o h
    simp [process_frame, h]
  · intro t
    rfl

/-- C4 (witness): the concrete ack frame `ack = "door:open"` replaces
the ack slot of a store and keeps its telemetry. -/
theorem claim4_witness :
    objHasKey [("ack", JVal.jstr "door:open")] "ack" = true
    ∧ process_frame telemInit (Frame.obj [("ack", JVal.jstr "door:open")])
        = ⟨telemInit.telemetry, [("ack", JVal.jstr "door:open")]⟩ :=
  ⟨rfl,
   claim4_ack_wholesale_replacement.1 telemInit [("ack", JVal.jstr "door:open")] rfl⟩

/-- C6 (counterexample): on a write error the command sender publishes
the disconnected state with the error text, but it does not close the
socket — `_set_esp_state(None, ...)` merely drops the reference, no
`close()` is called. -/
theorem claim6_counterexample :
    ¬((send_to_esp_raw ⟨some 0, true, "192.168.1.9", 8088, ""⟩
        (WriteResult.err "Connection reset by peer") "ping").sockClosed = true)
    ∧ (send_to_esp_raw ⟨some 0, true, "192.168.1.9", 8088, ""⟩
        (WriteResult.err "Connection reset by peer") "ping").state.connected = false
    ∧ (send_to_esp_raw ⟨some 0, true, "192.168.1.9", 8088, ""⟩
        (WriteResult.err "Connection reset by peer") "ping").state.last_error
        = "Connection reset by peer" := by
  decide

/-- C6 (amended): whenever the command sender hits a write error, or the
telemetry reader hits a zero-length read or a read exception on the live
socket, the component publishes ConnectionState = NotConnected with the
failure reason recorded in `last_error` and drops the socket from the
shared state in the same atomic update — but it does not call `close()`
on the old socket. -/
theorem claim6_failure_publishes_not_connected :
    (∀ (st : EspState) (s : Nat) (e cmd : String), st.sock = some s → st.connected = true →
       (send_to_esp_raw st (WriteResult.err e) cmd).state
           = ⟨Option.none, false, st.ip, st.port, e⟩
       ∧ (send_to_esp_raw st (WriteResult.err e) cmd).ok = false
       ∧ (send_to_esp_raw st (WriteResult.err e) cmd).sockClosed = false)
    ∧ (∀ (esp : EspState) (t : TelemState) (s : Nat), esp.sock = some s → esp.connected = true →
       (telemetry_step esp t RecvOutcome.closed).esp
           = ⟨Option.none, false, esp.ip, esp.port, "peer closed"⟩
       ∧ (telemetry_step esp t RecvOutcome.closed).sockClosed = false)
    ∧ (∀ (esp : EspState) (t : TelemState) (s : Nat) (e : String),
         esp.sock = some s → esp.connected = true →
       (telemetry_step esp t (RecvOutcome.exn e)).esp
           = ⟨Option.none, false, esp.ip, esp.port, e⟩
       ∧ (telemetry_step esp t (RecvOutcome.exn e)).sockClosed = false) := by
  refine ⟨?_, ?_, ?_⟩
  · intro st s e cmd hs hc
    refine ⟨?_, ?_, ?_⟩ <;> simp [send_to_esp_raw, hs, hc]
  · intro esp t s hs hc
    refine ⟨?_, ?_⟩ <;> simp [telemetry_step, hs, hc]
  · intro esp t s e hs hc
    refine ⟨?_, ?_⟩ <;> simp [telemetry_step, hs, hc]

/-- C6 (witness): the amended theorem at a concrete connected state, for
the write-error and the peer-closed cases. -/
theorem claim6_witness :
    (⟨some 0, true, "192.168.1.9", 8088, ""⟩ : EspState).sock = some 0
    ∧ (send_to_esp_raw ⟨some 0, true, "192.168.1.9", 8088, ""⟩
          (WriteResult.err "broken pipe") "fan:on").state
        = ⟨Option.none, false, "192.168.1.9", 8088, "broken pipe"⟩
    ∧ (telemetry_step ⟨some 0, true, "192.168.1.9", 8088, ""⟩ telemInit
          RecvOutcome.closed).esp
        = ⟨Option.none, false, "192.168.1.9", 8088, "peer closed"⟩ :=
  ⟨rfl,
   (claim6_failure_publishes_not_connected.1 ⟨some 0, true, "192.168.1.9", 8088, ""⟩ 0
      "broken pipe" "fan:on" rfl rfl).1,
   (claim6_failure_publishes_not_connected.2.1 ⟨some 0, true, "192.168.1.9", 8088, ""⟩
      telemInit 0 rfl rfl).1⟩

/-- An iteration of the reconnector hands `start` to the socket exactly
when it performs a fresh transition into Connected. -/
theorem reconnector_sentStart_iff (st : SysState) (env : ReconEnv) :
    (reconnector_step st env).sentStartCmd = acceptedHandshake st env := by
  rcases env with ⟨tip, tport, conn, sid, w⟩
  by_cases hc : st.esp.connected = true
  · simp [reconnector_step, acceptedHandshake, hc]
  · rw [Bool.not_eq_true] at hc
    cases tip with
    | none => simp [reconnector_step, acceptedHandshake, hc]
    | some ip =>
      cases conn with
      | connectErr e => simp [reconnector_step, acceptedHandshake, hc]
      | handshake txt =>
        by_cases hs : pyIn HELLO_SIGNATURE txt = true
        · simp [reconnector_step, acceptedHandshake, hc, hs, AUTO_START_ON_CONNECT]
        · rw [Bool.not_eq_true] at hs
          simp [reconnector_step, acceptedHandshake, hc, hs]

/-- C5: along any run of the reconnector loop, the number of times the
one-shot `start` command is handed to the socket equals the number of
fresh transitions into Connected; while Connected the loop sends nothing
and changes nothing; and on each fresh transition the per-connection
flag is rearmed — it is reset and then set only when the start write
succeeded, staying reset when the write failed. -/
theorem claim5_one_shot_start :
    (∀ (st : SysState) (envs : List ReconEnv),
       (reconnector_run st envs).2 = freshConnects st envs)
    ∧ (∀ (st : SysState) (env : ReconEnv), st.esp.connected = true →
       reconnector_step st env = ⟨st, false, false⟩)
    ∧ (∀ (st : SysState) (env : ReconEnv) (ip txt : String),
       st.esp.connected = false → env.targetIp = some ip →
       env.conn = ConnectOutcome.handshake txt → pyIn HELLO_SIGNATURE txt = true →
       (reconnector_step st env).sentStartCmd = true
       ∧ (env.w = WriteResult.ok →
            (reconnector_step st env).state.sentStart = true
            ∧ (reconnector_step st env).state.esp.connected = true)
       ∧ (∀ e, env.w = WriteResult.err e →
            (reconnector_step st env).state.sentStart = false
            ∧ (reconnector_step st env).state.esp.connected = false)) := by
  refine ⟨?_, ?_, ?_⟩
  · intro st envs
    induction envs generalizing st with
    | nil => rfl
    | cons e es ih =>
      show (if (reconnector_step st e).sentStartCmd then 1 else 0)
          + (reconnector_run (reconnector_step st e).state es).2
        = (if acceptedHandshake st e then 1 else 0)
          + freshConnects (reconnector_step st e).state es
      rw [reconnector_sentStart_iff, ih]
  · intro st env hc
    simp [reconnector_step, hc]
  · intro st env ip txt hc hip hh hs
    rcases env with ⟨tip, tport, conn, sid, w⟩
    cases hip
    cases hh
    refine ⟨?_, ?_, ?_⟩
    · simp [reconnector_step, hc, hs, AUTO_START_ON_CONNECT]
    · intro hw
      cases hw
      simp [reconnector_step, hc, hs, AUTO_START_ON_CONNECT, send_command_start_eq,
        send_to_esp_raw]
    · intro e hw
      cases hw
      simp [reconnector_step, hc, hs, AUTO_START_ON_CONNECT, send_command_start_eq,
        send_to_esp_raw]

/-- C5 (witness): a concrete two-iteration run — a successful handshake
with auto-start, then an iteration that starts already Connected — in
which `start` is handed to the socket exactly once. -/
theorem claim5_witness :
    (reconnector_run ⟨⟨Option.none, false, "", 0, ""⟩, false⟩
      [⟨some "192.168.4.20", 8088, ConnectOutcome.handshake "\"hello\":\"esp32\"", 0,
          WriteResult.ok⟩,
       ⟨some "192.168.4.20", 8088, ConnectOutcome.handshake "\"hello\":\"esp32\"", 1,
          WriteResult.ok⟩]).2
      = freshConnects ⟨⟨Option.none, false, "", 0, ""⟩, false⟩
        [⟨some "192.168.4.20", 8088, ConnectOutcome.handshake "\"hello\":\"esp32\"", 0,
            WriteResult.ok⟩,
         ⟨some "192.168.4.20", 8088, ConnectOutcome.handshake "\"hello\":\"esp32\"", 1,
            WriteResult.ok⟩]
    ∧ (reconnector_run ⟨⟨Option.none, false, "", 0, ""⟩, false⟩
        [⟨some "192.168.4.20", 8088, ConnectOutcome.handshake "\"hello\":\"esp32\"", 0,
            WriteResult.ok⟩,
         ⟨some "192.168.4.20", 8088, ConnectOutcome.handshake "\"hello\":\"esp32\"", 1,
            WriteResult.ok⟩]).2 = 1 :=
  ⟨claim5_one_shot_start.1 ⟨⟨Option.none, false, "", 0, ""⟩, false⟩ _, by decide⟩

/-- C9 (counterexample): a handshake without the signature records the
error `"handshake failed (not esp32)"`, not the string
`"handshake failed"`. -/
theorem claim9_counterexample :
    ¬((reconnector_step ⟨⟨Option.none, false, "", 0, ""⟩, false⟩
        ⟨some "192.168.1.77", 8088, ConnectOutcome.handshake "nope", 0,
          WriteResult.ok⟩).state.esp.last_error = "handshake failed")
    ∧ (reconnector_step ⟨⟨Option.none, false, "", 0, ""⟩, false⟩
        ⟨some "192.168.1.77", 8088, ConnectOutcome.handshake "nope", 0,
          WriteResult.ok⟩).state.esp.last_error = "handshake failed (not esp32)" := by
  decide

/-- C9 (amended): a connection attempt is accepted exactly when the
handshake text contains the literal `"hello":"esp32"`; on acceptance the
socket is published as Connected with `last_error` cleared to empty; on
absence of the signature the fresh socket is closed, the state stays
NotConnected, and `"handshake failed (not esp32)"` — a message beginning
with "handshake failed" — is recorded as the error. -/
theorem claim9_handshake_acceptance (st : SysState) (env : ReconEnv) (ip txt : String)
    (hc : st.esp.connected = false) (hip : env.targetIp = some ip)
    (hh : env.conn = ConnectOutcome.handshake txt) (hw : env.w = WriteResult.ok) :
    ((reconnector_step st env).state.esp.connected = true
        ↔ pyIn HELLO_SIGNATURE txt = true)
    ∧ (pyIn HELLO_SIGNATURE txt = true →
        (reconnector_step st env).state.esp
            = ⟨some env.sockId, true, ip, env.targetPort, ""⟩)
    ∧ (pyIn HELLO_SIGNATURE txt = false →
        (reconnector_step st env).state.esp
            = ⟨Option.none, false, ip, env.targetPort, "handshake failed (not esp32)"⟩
        ∧ (reconnector_step st env).closedSock = true) := by
  rcases env with ⟨tip, tport, conn, sid, w⟩
  cases hip
  cases hh
  cases hw
  by_cases hs : pyIn HELLO_SIGNATURE txt = true
  · refine ⟨?_, ?_, ?_⟩
    · simp [reconnector_step, hc, hs, AUTO_START_ON_CONNECT, send_command_start_eq,
        send_to_esp_raw]
    · intro _
      simp [reconnector_step, hc, hs, AUTO_START_ON_CONNECT, send_command_start_eq,
        send_to_esp_raw]
    · intro h
      rw [hs] at h
      cases h
  · rw [Bool.not_eq_true] at hs
    refine ⟨?_, ?_, ?_⟩
    · simp [reconnector_step, hc, hs]
    · intro h
      rw [hs] at h
      cases h
    · intro _
      refine ⟨?_, ?_⟩ <;> simp [reconnector_step, hc, hs]

/-- C9 (witness): the amended theorem at a concrete accepting handshake. -/
theorem claim9_witness :
    pyIn HELLO_SIGNATURE "pre \"hello\":\"esp32\" post" = true
    ∧ (reconnector_step ⟨⟨Option.none, false, "", 0, ""⟩, false⟩
        ⟨some "192.168.1.77", 8088,
          ConnectOutcome.handshake "pre \"hello\":\"esp32\" post", 7,
          WriteResult.ok⟩).state.esp
      = ⟨some 7, true, "192.168.1.77", 8088, ""⟩ :=
  ⟨by decide,
   (claim9_handshake_acceptance ⟨⟨Option.none, false, "", 0, ""⟩, false⟩
      ⟨some "192.168.1.77", 8088,
        ConnectOutcome.handshake "pre \"hello\":\"esp32\" post", 7, WriteResult.ok⟩
      "192.168.1.77" "pre \"hello\":\"esp32\" post" rfl rfl rfl rfl).2.1 (by decide)⟩

/-! ## Discovery lemmas and claims -/

/-- Membership in the de-duplicated list: exactly the elements of the
input not already in the `seen` accumulator. -/
theorem mem_dedupFirst (l : List String) :
    ∀ (seen : List String) (x : String),
      x ∈ dedupFirst seen l ↔ (x ∈ l ∧ x ∉ seen) := by
  induction l with
  | nil => intro seen x; simp [dedupFirst]
  | cons y ys ih =>
    intro seen x
    by_cases hy : y ∈ seen
    · rw [show dedupFirst seen (y :: ys) = dedupFirst seen ys by simp [dedupFirst, hy], ih]
      simp only [List.mem_cons]
      constructor
      · rintro ⟨hx, hns⟩
        exact ⟨Or.inr hx, hns⟩
      · rintro ⟨rfl | hx, hns⟩
        · exact absurd hy hns
        · exact ⟨hx, hns⟩
    · rw [show dedupFirst seen (y :: ys) = y :: dedupFirst (y :: seen) ys by
        simp [dedupFirst, hy]]
      simp only [List.mem_cons, ih]
      constructor
      · rintro (rfl | ⟨hx, hns⟩)
        · exact ⟨Or.inl rfl, hy⟩
        · exact ⟨Or.inr hx, fun h => hns (Or.inr h)⟩
      · rintro ⟨rfl | hx, hns⟩
        · exact Or.inl rfl
        · by_cases hxy : x = y
          · exact Or.inl hxy
          · exact Or.inr ⟨hx, fun h => h.elim hxy hns⟩

/-- The de-duplicated list has no duplicates. -/
theorem dedupFirst_nodup (l : List String) :
    ∀ seen : List String, (dedupFirst seen l).Nodup := by
  induction l with
  | nil => intro seen; simp [dedupFirst]
  | cons y ys ih =>
    intro seen
    by_cases hy : y ∈ seen
    · rw [show dedupFirst seen (y :: ys) = dedupFirst seen ys by simp [dedupFirst, hy]]
      exact ih seen
    · rw [show dedupFirst seen (y :: ys) = y :: dedupFirst (y :: seen) ys by
        simp [dedupFirst, hy]]
      refine List.nodup_cons.mpr ⟨?_, ih (y :: seen)⟩
      intro hmem
      exact ((mem_dedupFirst ys (y :: seen) y).mp hmem).2 (List.mem_cons_self y seen)

/-- De-duplication keeps the elements in order of first appearance: the
result is a sublist of the input. -/
theorem dedupFirst_sublist (l : List String) :
    ∀ seen : List String, List.Sublist (dedupFirst seen l) l := by
  induction l with
  | nil => intro seen; simp [dedupFirst]
  | cons y ys ih =>
    intro seen
    by_cases hy : y ∈ seen
    · rw [show dedupFirst seen (y :: ys) = dedupFirst seen ys by simp [dedupFirst, hy]]
      exact (ih seen).cons y
    · rw [show dedupFirst seen (y :: ys) = y :: dedupFirst (y :: seen) ys by
        simp [dedupFirst, hy]]
      exact (ih (y :: seen)).cons₂ y

/-- The local `/24` prefix derived from the host's own IP. -/
def localPfx (local_ip : String) : String :=
  joinDots ((pySplitDot local_ip).take 3)

/-- C7: the discovery candidate list is the ARP tier — cache addresses
restricted to the local prefix, excluding `.1`, de-duplicated in order
of first appearance — followed by the remaining `.2`-`.254` prefix hosts
not already listed; the scan, modelled over any completion order of the
bounded pool, returns a candidate exactly when its probe finds the
signature, and reports not-found exactly when no candidate matches. -/
theorem claim7_discovery_two_tiers (local_ip : String) (arpIps : List String)
    (sched : List String → List String) (probeRes : String → ProbeOutcome)
    (h4 : (pySplitDot local_ip).length = 4)
    (hp : List.Perm (sched (discovery_candidates local_ip arpIps))
        (discovery_candidates local_ip arpIps)) :
    (discovery_candidates local_ip arpIps
        = _arp_candidates (localPfx local_ip) arpIps
          ++ (_cidr_hosts local_ip).filter
              (fun h => !(_arp_candidates (localPfx local_ip) arpIps).contains h
                  && !pyEndsWith h ".1"))
    ∧ (_arp_candidates (localPfx local_ip) arpIps).Nodup
    ∧ (∀ ip, ip ∈ _arp_candidates (localPfx local_ip) arpIps
        ↔ ip ∈ arpIps.filter
            (fun q => pyStartsWith q (localPfx local_ip ++ ".") && !pyEndsWith q ".1"))
    ∧ List.Sublist (_arp_candidates (localPfx local_ip) arpIps)
        (arpIps.filter
          (fun q => pyStartsWith q (localPfx local_ip ++ ".") && !pyEndsWith q ".1"))
    ∧ (discover_esp_ip local_ip arpIps sched probeRes = Option.none
        ↔ ∀ ip ∈ discovery_candidates local_ip arpIps, _probe_esp (probeRes ip) = false)
    ∧ (∀ ip, discover_esp_ip local_ip arpIps sched probeRes = some ip →
        ip ∈ discovery_candidates local_ip arpIps ∧ _probe_esp (probeRes ip) = true) := by
  have hdisc : discover_esp_ip local_ip arpIps sched probeRes
      = (sched (discovery_candidates local_ip arpIps)).find?
          (fun ip => _probe_esp (probeRes ip)) := by
    simp [discover_esp_ip, h4]
  refine ⟨rfl, dedupFirst_nodup _ [], ?_, dedupFirst_sublist _ [], ?_, ?_⟩
  · intro ip
    rw [_arp_candidates, mem_dedupFirst]
    simp
  · rw [hdisc, List.find?_eq_none]
    constructor
    · intro h ip hip
      have := h ip (hp.mem_iff.mpr hip)
      simpa using this
    · intro h ip hip
      simp [h ip (hp.mem_iff.mp hip)]
  · intro ip h
    rw [hdisc] at h
    exact ⟨hp.mem_iff.mp (List.mem_of_find?_eq_some h), by simpa using List.find?_some h⟩

/-- ARP addresses as extracted by the regex, for the concrete witness. -/
def arpEx : List String := ["192.168.4.23", "10.0.0.5", "192.168.4.23", "192.168.4.1"]

/-- Probe outcomes for the concrete witness: one host answers with the
signature, all others refuse the connection. -/
def probeEx : String → ProbeOutcome := fun ip =>
  if ip = "192.168.4.30" then ProbeOutcome.recvData "x\"hello\":\"esp32\"x"
  else ProbeOutcome.connectFail "connection refused"

/-- C7 (witness): the theorem applied to a concrete subnet, ARP cache and
probe table; discovery returns the single matching host. -/
theorem claim7_witness :
    (pySplitDot "192.168.4.7").length = 4
    ∧ discover_esp_ip "192.168.4.7" arpEx (fun l => l) probeEx = some "192.168.4.30"
    ∧ ("192.168.4.30" ∈ discovery_candidates "192.168.4.7" arpEx
        ∧ _probe_esp (probeEx "192.168.4.30") = true) :=
  ⟨by decide, by decide,
   (claim7_discovery_two_tiers "192.168.4.7" arpEx (fun l => l) probeEx (by decide)
      (List.Perm.refl _)).2.2.2.2.2 "192.168.4.30" (by decide)⟩

/-- C8: every probe error (connect failure, read failure, read timeout)
makes `_probe_esp` answer `False` rather than raising; a probe answers
`True` exactly when it read text containing the signature; hence a scan
can only ever return a candidate whose probe actually read the
signature, and probe errors never abort the scan. -/
theorem claim8_probe_errors_nonfatal :
    (∀ e, _probe_esp (ProbeOutcome.connectFail e) = false)
    ∧ (∀ e, _probe_esp (ProbeOutcome.recvFail e) = false)
    ∧ _probe_esp ProbeOutcome.recvTimeout = false
    ∧ (∀ o, _probe_esp o = true
        ↔ ∃ txt, o = ProbeOutcome.recvData txt ∧ pyIn HELLO_SIGNATURE txt = true)
    ∧ (∀ (local_ip : String) (arpIps : List String) (sched : List String → List String)
         (probeRes : String → ProbeOutcome) (ip : String),
        discover_esp_ip local_ip arpIps sched probeRes = some ip →
        ∃ txt, probeRes ip = ProbeOutcome.recvData txt ∧ pyIn HELLO_SIGNATURE txt = true) := by
  have hiff : ∀ o, _probe_esp o = true
      ↔ ∃ txt, o = ProbeOutcome.recvData txt ∧ pyIn HELLO_SIGNATURE txt = true := by
    intro o
    cases o with
    | connectFail e => simp [_probe_esp]
    | recvTimeout => simp [_probe_esp]; decide
    | recvData txt => simp [_probe_esp]
    | recvFail e => simp [_probe_esp]
  refine ⟨fun e => rfl, fun e => rfl, by decide, hiff, ?_⟩
  intro local_ip arpIps sched probeRes ip h
  by_cases h4 : (pySplitDot local_ip).length = 4
  · have hdisc : discover_esp_ip local_ip arpIps sched probeRes
        = (sched (discovery_candidates local_ip arpIps)).find?
            (fun ip => _probe_esp (probeRes ip)) := by
      simp [discover_esp_ip, h4]
    rw [hdisc] at h
    exact (hiff (probeRes ip)).mp (by simpa using List.find?_some h)
  · rw [show discover_esp_ip local_ip arpIps sched probeRes = Option.none by
      simp [discover_esp_ip, h4]] at h
    cases h

/-- C8 (witness): the theorem applied to a concrete failing probe and to
the concrete discovery run of the C7 witness environment. -/
theorem claim8_witness :
    _probe_esp (ProbeOutcome.connectFail "connection refused") = false
    ∧ ∃ txt, probeEx "192.168.4.30" = ProbeOutcome.recvData txt
        ∧ pyIn HELLO_SIGNATURE txt = true :=
  ⟨claim8_probe_errors_nonfatal.1 "connection refused",
   claim8_probe_errors_nonfatal.2.2.2.2 "192.168.4.7" arpEx (fun l => l) probeEx
     "192.168.4.30" (by decide)⟩

end FaceRecWeb
